import Mathlib

/-
Verification of the future-to-observable bridge (`src/observable/from_future.rs`
of rxRust): a shallow embedding of the two emitters `FutureEmitter` and
`FutureResultEmitter`, of the single-value sinks they delegate to, and of the
lazily constructed `DEFAULT_RUNTIME` thread pool, together with proofs of the
notification-sequence, error-handling, singleton and locking properties.
-/

namespace RxRust

/-- A push-protocol notification delivered to a subscriber:
`next(value)`, `error(err)` or `complete()`. -/
inductive Notification (Item Err : Type) where
  | next (v : Item)
  | error (e : Err)
  | complete
deriving DecidableEq

/-- A one-shot asynchronous computation, represented by the single `Output`
value it eventually resolves to (the bridge never cancels or re-polls it, so
the resolved value is all that is observable of it). -/
structure Future (α : Type) where
  output : α
deriving DecidableEq

/-- `FutureExt::map`: the mapped future resolves to `g` applied to the
original future's output. -/
def Future.map {α β : Type} (f : Future α) (g : α → β) : Future β :=
  ⟨g f.output⟩

/-- Modelled from the spec: the single-value push shape of `of::OfEmitter`
(`src/observable/of.rs` is not among the sources). Its shared emit pushes the
wrapped value and then completes: `next(v)`, `complete()`. -/
def OfEmitter.emit {Item Err : Type} (v : Item) : List (Notification Item Err) :=
  [Notification.next v, Notification.complete]

/-- Modelled from the spec: the result push shape of `of::ResultEmitter`
(`src/observable/of.rs` is not among the sources). A success outcome pushes
`next(v)` then `complete()`; a failure outcome pushes a single `error(e)`. -/
def ResultEmitter.emit {Item Err : Type} :
    Except Err Item → List (Notification Item Err)
  | Except.ok v => [Notification.next v, Notification.complete]
  | Except.error e => [Notification.error e]

/-- The executor behind `DEFAULT_RUNTIME`; identified by an id so that
distinct constructions are distinguishable. -/
structure ThreadPool where
  id : Nat
deriving DecidableEq

/-- The abrupt termination produced by `.unwrap()` on a failed pool
construction or a failed spawn. -/
inductive PoolPanic where
  | panic
deriving DecidableEq

/-- `ThreadPool::new().unwrap()`: pool construction either yields a pool or
fails, and `.unwrap()` turns the failure into a panic (modelled as
`Except.error`), with no recovery path. -/
def mkThreadPool (ok : Bool) (id : Nat) : Except PoolPanic ThreadPool :=
  if ok then Except.ok ⟨id⟩ else Except.error PoolPanic.panic

/-- The `lazy_static!` cell holding `DEFAULT_RUNTIME`: forcing it with the
current cell state (`none` before first use, `some p` once constructed) and
the construction computation returns the pool to use and the new cell state.
Construction runs only on first use; later uses return the stored pool. -/
def DEFAULT_RUNTIME.force (state : Option ThreadPool)
    (construct : Except PoolPanic ThreadPool) :
    Except PoolPanic (ThreadPool × Option ThreadPool) :=
  match state with
  | some p => Except.ok (p, some p)
  | none => construct.map fun p => (p, some p)

/-- `FutureEmitter(f)`: the value bridge wrapping a future. -/
structure FutureEmitter (Item : Type) where
  f : Future Item

/-- `type Err = ()` in `impl Emitter for FutureEmitter`: the error channel of
a `from_future` observable is fixed to the unit type. -/
abbrev FutureEmitter.Err : Type := Unit

/-- The outcome of an emit call: the notifications pushed synchronously on the
subscribing thread before the call returns (`sync`), and the notifications the
submitted unit of work pushes later on a pool-chosen thread (`task`). -/
structure EmitResult (Item Err : Type) where
  sync : List (Notification Item Err)
  task : List (Notification Item Err)
deriving DecidableEq

/-- `FutureEmitter::emit` (SharedEmitter impl): maps the future with a
continuation that feeds the resolved value through `of::OfEmitter` against the
captured subscriber, and spawns the mapped future on `DEFAULT_RUNTIME`; the
subscriber is never invoked on the emitting thread. `spawnOk` is whether the
spawn succeeds; its `.unwrap()` panics otherwise, before anything is pushed. -/
def FutureEmitter.emit {Item : Type} (e : FutureEmitter Item) (spawnOk : Bool) :
    Except PoolPanic (EmitResult Item FutureEmitter.Err) :=
  let fmapped := e.f.map fun v => OfEmitter.emit v
  if spawnOk then Except.ok ⟨[], fmapped.output⟩
  else Except.error PoolPanic.panic

/-- `FutureResultEmitter(f, PhantomData)`: the result bridge wrapping a future
whose output converts into a success/failure outcome; `into` is the
`Into<Result<Item, Err>>` conversion of the output type. -/
structure FutureResultEmitter (α Item Err : Type) where
  f : Future α
  into : α → Except Err Item

/-- `FutureResultEmitter::emit` (SharedEmitter impl): maps the future with a
continuation that converts the resolved output via `into` and feeds it through
`of::ResultEmitter`, and spawns the mapped future on `DEFAULT_RUNTIME`. -/
def FutureResultEmitter.emit {α Item Err : Type}
    (e : FutureResultEmitter α Item Err) (spawnOk : Bool) :
    Except PoolPanic (EmitResult Item Err) :=
  let fmapped := e.f.map fun v => ResultEmitter.emit (e.into v)
  if spawnOk then Except.ok ⟨[], fmapped.output⟩
  else Except.error PoolPanic.panic

/-- An observable built from an emitter (`ObservableBase::new`). -/
structure ObservableBase (E : Type) where
  emitter : E

/-- `from_future(f)`: wraps the future in a `FutureEmitter` observable. -/
def from_future {Item : Type} (f : Future Item) :
    ObservableBase (FutureEmitter Item) :=
  ⟨⟨f⟩⟩

/-- `from_future_result(f)`: wraps the future in a `FutureResultEmitter`
observable; `into` is the output type's conversion into `Result<Item, Err>`. -/
def from_future_result {α Item Err : Type} (f : Future α)
    (into : α → Except Err Item) :
    ObservableBase (FutureResultEmitter α Item Err) :=
  ⟨⟨f, into⟩⟩

/-- All notifications the subscriber receives from an emit call, in order:
the synchronous ones followed by those of the pool task; a panicked emit
delivers nothing. -/
def delivered {Item Err : Type} :
    Except PoolPanic (EmitResult Item Err) → List (Notification Item Err)
  | Except.ok r => r.sync ++ r.task
  | Except.error _ => []

/-- The notifications pushed on the subscribing thread before emit returns. -/
def syncDelivered {Item Err : Type} :
    Except PoolPanic (EmitResult Item Err) → List (Notification Item Err)
  | Except.ok r => r.sync
  | Except.error _ => []

/-- The notifications pushed by the submitted unit of work on a pool thread. -/
def taskDelivered {Item Err : Type} :
    Except PoolPanic (EmitResult Item Err) → List (Notification Item Err)
  | Except.ok r => r.task
  | Except.error _ => []

/-- Discriminator for `next` notifications. -/
def Notification.isNext {Item Err : Type} : Notification Item Err → Bool
  | Notification.next _ => true
  | _ => false

/-- Discriminator for `error` notifications. -/
def Notification.isError {Item Err : Type} : Notification Item Err → Bool
  | Notification.error _ => true
  | _ => false

/-- Discriminator for `complete` notifications. -/
def Notification.isComplete {Item Err : Type} : Notification Item Err → Bool
  | Notification.complete => true
  | _ => false

/-- A notification on the value/error channel (`next` or `error`). -/
def Notification.onValueErrChannel {Item Err : Type}
    (n : Notification Item Err) : Bool :=
  n.isNext || n.isError

/-- Checks that nothing follows a `complete` in a delivered sequence. -/
def noneAfterComplete {Item Err : Type} : List (Notification Item Err) → Bool
  | [] => true
  | Notification.complete :: rest => rest.isEmpty
  | _ :: rest => noneAfterComplete rest

/-- The per-instance invariant: at most one notification on the value/error
channel, at most one completion, and nothing delivered after completion. -/
def atMostOnceInvariant {Item Err : Type}
    (d : List (Notification Item Err)) : Bool :=
  decide (d.countP (fun n => n.onValueErrChannel) ≤ 1) &&
  decide (d.countP (fun n => n.isComplete) ≤ 1) &&
  noneAfterComplete d

/-- An event in an emission: the lock operations and the submit call performed
by the emitting thread, and the future poll and notification pushes performed
by the pool worker driving the submitted work. -/
inductive EmitEvent (Item Err : Type) where
  | lockAcquire
  | submitCall
  | lockRelease
  | poll
  | push (n : Notification Item Err)
deriving DecidableEq

/-- The events the emitting (subscribing) thread performs in
`FutureEmitter::emit`. From
`DEFAULT_RUNTIME.lock().unwrap().spawn(fmapped).unwrap()`: the mutex guard is
a temporary dropped at the end of the statement, so the lock is acquired, the
spawn is called, and the lock is released; the thread pushes nothing itself. -/
def FutureEmitter.callerEvents (Item : Type) :
    List (EmitEvent Item FutureEmitter.Err) :=
  [EmitEvent.lockAcquire, EmitEvent.submitCall, EmitEvent.lockRelease]

/-- The events the pool worker performs when driving the work submitted by
`FutureEmitter::emit`: poll the wrapped future to its output, then run the
continuation, which pushes the `of::OfEmitter` sequence; the worker never
touches the `DEFAULT_RUNTIME` lock. -/
def FutureEmitter.workerEvents {Item : Type} (e : FutureEmitter Item) :
    List (EmitEvent Item FutureEmitter.Err) :=
  EmitEvent.poll :: (e.f.map fun v => OfEmitter.emit v).output.map EmitEvent.push

/-- The events the emitting thread performs in `FutureResultEmitter::emit`;
same statement shape as the value bridge. -/
def FutureResultEmitter.callerEvents (Item Err : Type) :
    List (EmitEvent Item Err) :=
  [EmitEvent.lockAcquire, EmitEvent.submitCall, EmitEvent.lockRelease]

/-- The events the pool worker performs when driving the work submitted by
`FutureResultEmitter::emit`: poll, then push the `of::ResultEmitter` sequence
of the converted outcome. -/
def FutureResultEmitter.workerEvents {α Item Err : Type}
    (e : FutureResultEmitter α Item Err) : List (EmitEvent Item Err) :=
  EmitEvent.poll ::
    (e.f.map fun v => ResultEmitter.emit (e.into v)).output.map EmitEvent.push

/-- The events a thread performs while holding the `DEFAULT_RUNTIME` lock,
given its event sequence and whether it initially holds the lock. -/
def heldUnderLock {Item Err : Type} :
    List (EmitEvent Item Err) → Bool → List (EmitEvent Item Err)
  | [], _ => []
  | EmitEvent.lockAcquire :: rest, _ => heldUnderLock rest true
  | EmitEvent.lockRelease :: rest, _ => heldUnderLock rest false
  | e :: rest, held => (if held then [e] else []) ++ heldUnderLock rest held

/-- Whether an event sequence contains any lock operation. -/
def touchesLock {Item Err : Type} (evs : List (EmitEvent Item Err)) : Bool :=
  evs.any fun e =>
    match e with
    | EmitEvent.lockAcquire => true
    | EmitEvent.lockRelease => true
    | _ => false

/-- The notifications pushed by an event sequence, in order. -/
def pushedNotifications {Item Err : Type} :
    List (EmitEvent Item Err) → List (Notification Item Err)
  | [] => []
  | EmitEvent.push n :: rest => n :: pushedNotifications rest
  | _ :: rest => pushedNotifications rest

/-- C1: for every future that is immediately ready with value `v`, the
observable produced by `from_future` delivers to its subscriber exactly one
`next(v)` followed by exactly one `complete()`, and no error notification. -/
theorem from_future_next_then_complete {Item : Type} (v : Item) :
    delivered ((from_future (Future.mk v)).emitter.emit true)
      = [Notification.next v, Notification.complete]
  ∧ (delivered ((from_future (Future.mk v)).emitter.emit true)).countP
      (fun n => n.isError) = 0 := by
  constructor
  · rfl
  · simp [from_future, FutureEmitter.emit, Future.map, OfEmitter.emit,
      delivered, Notification.isError, List.countP, List.countP.go]

/-- C2: a future whose output is a failure-shaped value (`Result::Err(e)`) is
still delivered unexamined through the `next` channel by `from_future`; no
error notification is produced from the computation's outcome. -/
theorem from_future_err_shaped_passthrough {A E : Type} (e : E) :
    delivered ((from_future (Future.mk (Except.error e : Except E A))).emitter.emit true)
      = [Notification.next (Except.error e), Notification.complete]
  ∧ (delivered ((from_future (Future.mk (Except.error e : Except E A))).emitter.emit
      true)).countP (fun n => n.isError) = 0 := by
  constructor
  · rfl
  · simp [from_future, FutureEmitter.emit, Future.map, OfEmitter.emit,
      delivered, Notification.isError, List.countP, List.countP.go]

/-- C3: when the output of a `from_future_result` future converts to
`Ok(v)`, the subscriber receives exactly one `next(v)` followed by
`complete()`; when it converts to `Err(e)`, the subscriber receives exactly
one `error(e)` and no `next` or `complete`. -/
theorem from_future_result_branches {α Item Err : Type} (f : Future α)
    (into : α → Except Err Item) (v : Item) (er : Err) :
    (into f.output = Except.ok v →
      delivered ((from_future_result f into).emitter.emit true)
        = [Notification.next v, Notification.complete])
  ∧ (into f.output = Except.error er →
      delivered ((from_future_result f into).emitter.emit true)
        = [Notification.error er]) := by
  constructor
  · intro h
    simp [from_future_result, FutureResultEmitter.emit, Future.map, h,
      ResultEmitter.emit, delivered]
  · intro h
    simp [from_future_result, FutureResultEmitter.emit, Future.map, h,
      ResultEmitter.emit, delivered]

/-- Witness for C3 at the concrete future `ready(Ok 1)` with the identity
conversion. -/
theorem from_future_result_branches_witness :
    delivered ((from_future_result (Future.mk (Except.ok 1 : Except String Nat))
      id).emitter.emit true)
      = [Notification.next 1, Notification.complete] :=
  (from_future_result_branches (Future.mk (Except.ok 1 : Except String Nat))
    id 1 "x").1 rfl

/-- C4: every emission of a `from_future_result` bridge fires exactly one
terminal outcome: either the `next`/`complete` pair (and no `error`), or the
`error` notification (and no `next`/`complete`), never both. -/
theorem from_future_result_one_terminal {α Item Err : Type}
    (r : FutureResultEmitter α Item Err) :
    ((delivered (r.emit true)).countP (fun n => n.isNext) = 1
      ∧ (delivered (r.emit true)).countP (fun n => n.isComplete) = 1
      ∧ (delivered (r.emit true)).countP (fun n => n.isError) = 0)
  ∨ ((delivered (r.emit true)).countP (fun n => n.isError) = 1
      ∧ (delivered (r.emit true)).countP (fun n => n.isNext) = 0
      ∧ (delivered (r.emit true)).countP (fun n => n.isComplete) = 0) := by
  cases h : r.into r.f.output with
  | ok v =>
    left
    simp [FutureResultEmitter.emit, Future.map, h, ResultEmitter.emit,
      delivered, Notification.isNext, Notification.isComplete,
      Notification.isError, List.countP, List.countP.go]
  | error e =>
    right
    simp [FutureResultEmitter.emit, Future.map, h, ResultEmitter.emit,
      delivered, Notification.isNext, Notification.isComplete,
      Notification.isError, List.countP, List.countP.go]

/-- C5: every bridge instance (value or result, whether or not the spawn
succeeds) emits at most once on the value/error channel and at most one
completion, and delivers nothing after completion. -/
theorem bridge_at_most_once {Item α I E : Type} (e : FutureEmitter Item)
    (r : FutureResultEmitter α I E) (sp sp' : Bool) :
    atMostOnceInvariant (delivered (e.emit sp)) = true
  ∧ atMostOnceInvariant (delivered (r.emit sp')) = true := by
  constructor
  · cases sp <;>
      simp [FutureEmitter.emit, Future.map, OfEmitter.emit, delivered,
        atMostOnceInvariant, noneAfterComplete, Notification.onValueErrChannel,
        Notification.isNext, Notification.isError, Notification.isComplete,
        List.countP, List.countP.go]
  · cases sp' with
    | false =>
      simp [FutureResultEmitter.emit, delivered, atMostOnceInvariant,
        noneAfterComplete, List.countP, List.countP.go]
    | true =>
      cases h : r.into r.f.output <;>
        simp [FutureResultEmitter.emit, Future.map, h, ResultEmitter.emit,
          delivered, atMostOnceInvariant, noneAfterComplete,
          Notification.onValueErrChannel, Notification.isNext,
          Notification.isError, Notification.isComplete,
          List.countP, List.countP.go]

/-- The notifications pushed by a pure sequence of push events are exactly the
pushed list. -/
theorem pushedNotifications_map_push {Item Err : Type}
    (l : List (Notification Item Err)) :
    pushedNotifications (l.map EmitEvent.push) = l := by
  induction l with
  | nil => rfl
  | cons n rest ih => simp [pushedNotifications, ih]

/-- C6: no notification is delivered synchronously before the subscribing
call returns: both bridges push nothing on the emitting thread (their
synchronous delivery and their caller-thread event traces contain no push),
and everything the subscriber receives is pushed by the unit of work handed
off to the pool, on a pool-chosen worker thread. -/
theorem bridge_asynchronous_delivery {Item α I E : Type}
    (e : FutureEmitter Item) (r : FutureResultEmitter α I E) (sp : Bool) :
    syncDelivered (e.emit sp) = []
  ∧ syncDelivered (r.emit sp) = []
  ∧ pushedNotifications (FutureEmitter.callerEvents Item) = []
  ∧ pushedNotifications (FutureResultEmitter.callerEvents I E) = []
  ∧ pushedNotifications (FutureEmitter.workerEvents e) = delivered (e.emit true)
  ∧ pushedNotifications (FutureResultEmitter.workerEvents r)
      = delivered (r.emit true) := by
  refine ⟨?_, ?_, rfl, rfl, ?_, ?_⟩
  · cases sp <;> rfl
  · cases sp <;> rfl
  · simp [FutureEmitter.workerEvents, FutureEmitter.emit, Future.map,
      OfEmitter.emit, delivered, pushedNotifications]
  · simp [FutureResultEmitter.workerEvents, FutureResultEmitter.emit,
      Future.map, delivered, pushedNotifications, pushedNotifications_map_push]

/-- C7: the worker pool is lazily constructed on first use and is a
process-wide singleton: a first access constructs and stores the pool, and
every subsequent access returns that same instance and leaves the cell
unchanged, whatever construction computation it is given (so construction
never reruns). -/
theorem DEFAULT_RUNTIME_lazy_singleton
    (c c' : Except PoolPanic ThreadPool) (p : ThreadPool)
    (s' : Option ThreadPool)
    (h : DEFAULT_RUNTIME.force none c = Except.ok (p, s')) :
    c = Except.ok p ∧ s' = some p
  ∧ DEFAULT_RUNTIME.force s' c' = Except.ok (p, s') := by
  cases c with
  | ok q =>
    simp only [DEFAULT_RUNTIME.force, Except.map] at h
    obtain ⟨hq, hs⟩ := Prod.mk.injEq .. ▸ (Except.ok.injEq .. ▸ h)
    subst hq
    subst hs
    exact ⟨rfl, rfl, rfl⟩
  | error pe =>
    simp [DEFAULT_RUNTIME.force, Except.map] at h

/-- Witness for C7: forcing the uninitialized cell with a successful
construction of pool 0 stores pool 0, and a second access returns it even
when re-construction would fail. -/
theorem DEFAULT_RUNTIME_lazy_singleton_witness :
    (Except.ok (ThreadPool.mk 0) : Except PoolPanic ThreadPool)
      = Except.ok (ThreadPool.mk 0)
  ∧ some (ThreadPool.mk 0) = some (ThreadPool.mk 0)
  ∧ DEFAULT_RUNTIME.force (some (ThreadPool.mk 0))
      (Except.error PoolPanic.panic)
      = Except.ok (ThreadPool.mk 0, some (ThreadPool.mk 0)) :=
  DEFAULT_RUNTIME_lazy_singleton (Except.ok (ThreadPool.mk 0))
    (Except.error PoolPanic.panic) (ThreadPool.mk 0)
    (some (ThreadPool.mk 0)) rfl

/-- C8: pool-construction failure and spawn failure are panics (fatal,
unrecoverable), never stream error notifications, and no partial sequence is
ever delivered: a failed spawn delivers nothing, a successful one delivers the
full `next`/`complete` (value bridge) or the full converted sequence (result
bridge) — for every spawn outcome, delivery is all-or-nothing. -/
theorem pool_failure_fatal_all_or_nothing {Item α I E : Type} (v : Item)
    (r : FutureResultEmitter α I E) (n : Nat) (sp : Bool) :
    mkThreadPool false n = Except.error PoolPanic.panic
  ∧ DEFAULT_RUNTIME.force none (Except.error PoolPanic.panic)
      = Except.error PoolPanic.panic
  ∧ (FutureEmitter.mk (Future.mk v)).emit false = Except.error PoolPanic.panic
  ∧ r.emit false = Except.error PoolPanic.panic
  ∧ delivered ((FutureEmitter.mk (Future.mk v)).emit sp)
      = (if sp then [Notification.next v, Notification.complete] else [])
  ∧ (delivered (r.emit sp) = []
      ∨ delivered (r.emit sp) = ResultEmitter.emit (r.into r.f.output)) := by
  refine ⟨rfl, rfl, rfl, rfl, ?_, ?_⟩
  · cases sp <;> rfl
  · cases sp with
    | false => exact Or.inl rfl
    | true =>
      right
      simp [FutureResultEmitter.emit, Future.map, delivered]

/-- C9: the mutual-exclusion lock guarding the pool's submission handle is
held only for the duration of the submit call — the emitting thread's
critical section contains exactly the submit call — and the worker that
executes the wrapped computation and pushes the emission never touches the
lock, so the lock is never held across the computation's execution or the
push. -/
theorem submission_lock_scope {Item α I E : Type} (e : FutureEmitter Item)
    (r : FutureResultEmitter α I E) :
    heldUnderLock (FutureEmitter.callerEvents Item) false
      = [EmitEvent.submitCall]
  ∧ heldUnderLock (FutureResultEmitter.callerEvents I E) false
      = [EmitEvent.submitCall]
  ∧ touchesLock (FutureEmitter.workerEvents e) = false
  ∧ touchesLock (FutureResultEmitter.workerEvents r) = false := by
  refine ⟨rfl, rfl, ?_, ?_⟩
  · simp [FutureEmitter.workerEvents, Future.map, OfEmitter.emit, touchesLock]
  · simp only [FutureResultEmitter.workerEvents, Future.map, touchesLock]
    cases ResultEmitter.emit (r.into r.f.output) <;> simp

/-- C10: the error channel of every `from_future` observable has the unit
type: `FutureEmitter` fixes `Err = ()`, so every value of the error channel's
type is the trivial `()` and no emission of the value bridge ever contains an
error notification — the no-error policy is static, not only a runtime fact. -/
theorem from_future_error_channel_unit {Item : Type} (v : Item) (sp : Bool) :
    FutureEmitter.Err = Unit
  ∧ (∀ e₁ e₂ : FutureEmitter.Err, e₁ = e₂)
  ∧ (delivered ((from_future (Future.mk v)).emitter.emit sp)).countP
      (fun n => n.isError) = 0 := by
  refine ⟨rfl, fun e₁ e₂ => rfl, ?_⟩
  cases sp <;>
    simp [from_future, FutureEmitter.emit, Future.map, OfEmitter.emit,
      delivered, Notification.isError, List.countP, List.countP.go]

end RxRust
